/-
Verification of the Surveillance scene-interpreter core against its
specification.

Shallow embedding of:
  * Surveillance/layers/scene.py   (SceneInterpreterV1: process_depth,
    process, nonROI, get_layer)
  * Surveillance/activities/state.py (Base.__init__, Base._append_with_number_limit)

Modelling conventions:
  * numpy 2-D arrays become `Img α`: a height, a width and a total pixel
    function.  All claims quantify over in-bounds pixels or compare the
    pixel functions at matching indices.
  * Real-valued depth/height data is modelled over ℚ.
  * Python exceptions become explicit `SceneError` values; a method that
    mutates `self` and may raise is modelled as `Scene → ... → Scene × Option SceneError`,
    returning the state at the point the exception was raised.
  * numpy elementwise `|`, `& ~` and boolean-mask assignment are modelled
    as requiring identical 2-D shapes (numpy additionally broadcasts
    size-1 axes; no frame in scope has a degenerate axis and no claim
    relies on such broadcasting).  A shape disagreement is the spec's
    `ShapeMismatch` error (numpy raises ValueError there).
  * The spec's error vocabulary is used for the source's `assert`
    failures: the layer-name assert in get_layer is `UnknownLayer`, the
    BEV-matrix assert is `NoTransformConfigured`, and the
    depth/height-map precondition assert in nonROI is `NotCalibrated`.
-/
import Mathlib

/-- Error taxonomy of the spec (section 7), plus `NotProcessed` for the
Python `None`-attribute failures that occur when a layer is queried
before any frame has been processed. -/
inductive SceneError where
  | ShapeMismatch
  | NotCalibrated
  | NoTransformConfigured
  | UnknownLayer
  | NotProcessed
  deriving DecidableEq, Repr

/-- A 2-D array (numpy ndarray of shape h×w) with entries of type α:
a shape together with a total pixel function. -/
structure Img (α : Type) where
  h : Nat
  w : Nat
  px : Nat → Nat → α

/-- An RGB pixel (three byte channels). -/
abbrev RGB := Nat × Nat × Nat

/-- The two 2-D images have the same shape. -/
def Img.sameShape {α β : Type} (a : Img α) (b : Img β) : Prop :=
  a.h = b.h ∧ a.w = b.w

instance {α β : Type} (a : Img α) (b : Img β) : Decidable (a.sameShape b) :=
  inferInstanceAs (Decidable (_ ∧ _))

/-- numpy elementwise `a | b` on boolean arrays (scene.py line 126).
Shapes must agree, otherwise numpy raises (spec: ShapeMismatch). -/
def imgOr (a b : Img Bool) : Except SceneError (Img Bool) :=
  if a.sameShape b then
    .ok ⟨a.h, a.w, fun i j => a.px i j || b.px i j⟩
  else .error .ShapeMismatch

/-- numpy elementwise `a & (~b)` on boolean arrays (scene.py line 127). -/
def imgAndNot (a b : Img Bool) : Except SceneError (Img Bool) :=
  if a.sameShape b then
    .ok ⟨a.h, a.w, fun i j => a.px i j && !(b.px i j)⟩
  else .error .ShapeMismatch

/-- numpy boolean-mask assignment `a[m] = False` (scene.py lines 131-132):
every pixel where m is true is cleared.  The index mask must have the
array's shape. -/
def maskSetFalse (a m : Img Bool) : Except SceneError (Img Bool) :=
  if a.sameShape m then
    .ok ⟨a.h, a.w, fun i j => a.px i j && !(m.px i j)⟩
  else .error .ShapeMismatch

/-- Pixelwise `mask[:,:,np.newaxis].astype(np.uint8) * rgb_img` (scene.py
line 189): keep the RGB pixel where the mask is true, zero elsewhere. -/
def maskTimesRGB (m : Img Bool) (rgb : Img RGB) : Except SceneError (Img RGB) :=
  if m.sameShape rgb then
    .ok ⟨m.h, m.w, fun i j => if m.px i j then rgb.px i j else (0, 0, 0)⟩
  else .error .ShapeMismatch

/-- A 3×3 homography matrix over ℚ. -/
structure Mat3 where
  m00 : ℚ
  m01 : ℚ
  m02 : ℚ
  m10 : ℚ
  m11 : ℚ
  m12 : ℚ
  m20 : ℚ
  m21 : ℚ
  m22 : ℚ

/-- Apply a homography to a 2-D point in homogeneous coordinates,
dividing out the projective scale (0 when the point maps to infinity). -/
def homApply (m : Mat3) (x y : ℚ) : ℚ × ℚ :=
  let d := m.m20 * x + m.m21 * y + m.m22
  if d = 0 then (0, 0)
  else ((m.m00 * x + m.m01 * y + m.m02) / d, (m.m10 * x + m.m11 * y + m.m12) / d)

/-- Adjugate of a 3×3 matrix.  As a homography it acts exactly like the
inverse matrix (projective scale cancels) whenever the determinant is
nonzero. -/
def Mat3.adjugate (m : Mat3) : Mat3 where
  m00 := m.m11 * m.m22 - m.m12 * m.m21
  m01 := m.m02 * m.m21 - m.m01 * m.m22
  m02 := m.m01 * m.m12 - m.m02 * m.m11
  m10 := m.m12 * m.m20 - m.m10 * m.m22
  m11 := m.m00 * m.m22 - m.m02 * m.m20
  m12 := m.m02 * m.m10 - m.m00 * m.m12
  m20 := m.m10 * m.m21 - m.m11 * m.m20
  m21 := m.m01 * m.m20 - m.m00 * m.m21
  m22 := m.m00 * m.m11 - m.m01 * m.m10

/-- Modelled from the spec: `cv2.warpPerspective(src, M, dsize)` is an
external OpenCV call (scene.py lines 194-198); per spec section 4.4 it
produces the rectified image whose dimensions are the requested `dsize`,
remapping pixel sampling through the transform.  Sampling is modelled as
nearest-neighbour inverse mapping (destination pixel (x,y) reads the
source at M⁻¹·(x,y), here via the adjugate) with zero border. -/
def warpPerspective {α : Type} (src : Img α) (m : Mat3) (dw dh : Nat) (zero : α) : Img α :=
  ⟨dh, dw, fun i j =>
    let p := homApply m.adjugate (j : ℚ) (i : ℚ)
    let sj : Int := round p.1
    let si : Int := round p.2
    if 0 ≤ si ∧ si < (src.h : Int) ∧ 0 ≤ sj ∧ sj < (src.w : Int) then
      src.px si.toNat sj.toNat
    else zero⟩

/-- A value returned by get_layer: either a binary mask (mask_only) or a
masked RGB image. -/
inductive Layer where
  | mask (m : Img Bool)
  | image (im : Img RGB)

/-- The spatial dimensions (h, w) of a layer. -/
def Layer.hw : Layer → Nat × Nat
  | .mask m => (m.h, m.w)
  | .image im => (im.h, im.w)

/-- scene.py lines 194-198 applied to a layer: the warp is called with
dsize `(layer.shape[1], layer.shape[0])`, i.e. the layer's own width and
height (a mask goes through uint8 and back to bool, which is the
identity on {0,1} data). -/
def warpLayer (m : Mat3) : Layer → Layer
  | .mask msk => .mask (warpPerspective msk m msk.w msk.h false)
  | .image im => .image (warpPerspective im m im.w im.h (0, 0, 0))

/-- Params of SceneInterpreterV1 (scene.py lines 43-50): the optional
Bird-eye-view transformation matrix. -/
structure Params where
  BEV_trans_mat : Option Mat3

/-- The state of a SceneInterpreterV1 instance (scene.py lines 70-96).
The four segmenters are external capabilities (spec section 6): each is
an opaque function from its stored height map (where it consumes one)
and the RGB frame to the raw mask its `process`/`get_mask` pair
produces; the puzzle segmenter additionally receives the detected masks
set by `set_detected_masks`. -/
structure Scene where
  params : Params
  /-- Modelled from the spec: the HeightEstimator class lives in
  Surveillance/utils/height_estimate.py, which is not part of the given
  sources; per spec section 4.1 it holds the calibrated reference depth
  frame, stored one-shot by `calibrate`. -/
  refDepth : Option (Img ℚ)
  humanSeg : Option (Img ℚ) → Img RGB → Img Bool
  robotSeg : Option (Img ℚ) → Img RGB → Img Bool
  bgSeg : Img RGB → Img Bool
  puzzleSeg : List (Img Bool) → Img RGB → Img Bool
  /-- Height map last pushed to the human segmenter by update_height_map. -/
  humanSegHeight : Option (Img ℚ)
  /-- Height map last pushed to the robot segmenter by update_height_map. -/
  robotSegHeight : Option (Img ℚ)
  rgb_img : Option (Img RGB)
  depth : Option (Img ℚ)
  height_map : Option (Img ℚ)
  bg_mask : Option (Img Bool)
  human_mask : Option (Img Bool)
  robot_mask : Option (Img Bool)
  puzzle_mask : Option (Img Bool)

/-- Modelled from the spec: `HeightEstimator.apply` (called at scene.py
line 103) is not under the given sources.  Per spec section 4.1, height
at a pixel is the difference between the calibrated reference depth and
the current depth at that pixel (the interpreter takes the absolute
value itself); it fails with NotCalibrated before calibration and with
ShapeMismatch when the resolutions disagree. -/
def heightEstimatorApply (ref : Option (Img ℚ)) (d : Img ℚ) : Except SceneError (Img ℚ) :=
  match ref with
  | none => .error .NotCalibrated
  | some r =>
    if r.sameShape d then
      .ok ⟨d.h, d.w, fun i j => r.px i j - d.px i j⟩
    else .error .ShapeMismatch

/-- SceneInterpreterV1.process_depth (scene.py lines 98-106): store the
depth, recompute the height map as `np.abs(height_estimator.apply(depth))`,
and push the height map to the human and robot segmenters. -/
def process_depth (s : Scene) (d : Img ℚ) : Scene × Option SceneError :=
  let s1 := { s with depth := some d }
  match heightEstimatorApply s1.refDepth d with
  | .error e => (s1, some e)
  | .ok raw =>
    let hm : Img ℚ := ⟨raw.h, raw.w, fun i j => |raw.px i j|⟩
    ({ s1 with height_map := some hm, humanSegHeight := some hm, robotSegHeight := some hm },
     none)

/-- SceneInterpreterV1.nonROI (scene.py lines 150-168): a zero mask of
the depth's shape, set true where `|depth| < 1e-3` (rule 1) and where
`height_map > 0.5` (rule 2).  The leading assert that both the height
map and the depth are present is the spec's NotCalibrated error; the
second masked assignment needs the height map to have the depth's shape
(otherwise numpy raises: ShapeMismatch). -/
def nonROI (s : Scene) : Except SceneError (Img Bool) :=
  match s.height_map, s.depth with
  | some hm, some d =>
    if hm.sameShape d then
      .ok ⟨d.h, d.w, fun i j => (|d.px i j| < 1/1000 : Bool) || (hm.px i j > 1/2 : Bool)⟩
    else .error .ShapeMismatch
  | _, _ => .error .NotCalibrated

/-- SceneInterpreterV1.process (scene.py lines 108-136), with each
`self.*` mutation modelled in source order; an exception leaves the
state as mutated so far. -/
def process (s : Scene) (img : Img RGB) : Scene × Option SceneError :=
  let s0 := { s with rgb_img := some img }
  match nonROI s0 with
  | .error e => (s0, some e)
  | .ok nonROI_mask =>
    -- human (lines 121-122)
    let humanRaw := s0.humanSeg s0.humanSegHeight img
    let s1 := { s0 with human_mask := some humanRaw }
    -- bg (lines 124-127)
    let bgRaw := s1.bgSeg img
    let s2 := { s1 with bg_mask := some bgRaw }
    match imgOr bgRaw nonROI_mask with
    | .error e => (s2, some e)
    | .ok bg1 =>
      let s3 := { s2 with bg_mask := some bg1 }
      match imgAndNot bg1 humanRaw with
      | .error e => (s3, some e)
      | .ok bg2 =>
        let s4 := { s3 with bg_mask := some bg2 }
        -- robot (lines 129-132)
        let robotRaw := s4.robotSeg s4.robotSegHeight img
        let s5 := { s4 with robot_mask := some robotRaw }
        match maskSetFalse robotRaw humanRaw with
        | .error e => (s5, some e)
        | .ok rb1 =>
          let s6 := { s5 with robot_mask := some rb1 }
          match maskSetFalse rb1 bg2 with
          | .error e => (s6, some e)
          | .ok rb2 =>
            let s7 := { s6 with robot_mask := some rb2 }
            -- puzzle (lines 134-136)
            let pz := s7.puzzleSeg [bg2, humanRaw, rb2] img
            ({ s7 with puzzle_mask := some pz }, none)

/-- The mask selected by `eval("self." + layer_name + "_mask")`
(scene.py line 184) for a valid layer name. -/
def layerMask (s : Scene) : String → Option (Img Bool)
  | "bg" => s.bg_mask
  | "human" => s.human_mask
  | "robot" => s.robot_mask
  | "puzzle" => s.puzzle_mask
  | _ => none

/-- scene.py lines 182-189: the layer-name assert (spec: UnknownLayer),
mask selection, and the mask-only / masked-RGB choice.  Querying a
still-`None` mask or RGB image is the Python None failure, modelled as
NotProcessed. -/
def layerContent (s : Scene) (layer_name : String) (mask_only : Bool) :
    Except SceneError Layer :=
  if layer_name ∈ ["bg", "human", "robot", "puzzle"] then
    match layerMask s layer_name with
    | none => .error .NotProcessed
    | some msk =>
      if mask_only then .ok (.mask msk)
      else
        match s.rgb_img with
        | none => .error .NotProcessed
        | some rgb =>
          match maskTimesRGB msk rgb with
          | .error e => .error e
          | .ok im => .ok (.image im)
  else .error .UnknownLayer

/-- SceneInterpreterV1.get_layer (scene.py lines 171-203): select the
layer content, then optionally rectify it to the bird-eye view; the
assert that a BEV transformation matrix was stored is the spec's
NoTransformConfigured error. -/
def get_layer (s : Scene) (layer_name : String) (mask_only BEV_rectify : Bool) :
    Except SceneError Layer :=
  match layerContent s layer_name mask_only with
  | .error e => .error e
  | .ok layer =>
    if BEV_rectify then
      match s.params.BEV_trans_mat with
      | none => .error .NoTransformConfigured
      | some m => .ok (warpLayer m layer)
    else .ok layer

/-
  Surveillance/activities/state.py
-/

/-- Base._append_with_number_limit (state.py lines 106-114), acting on
one cache.  The cache is the backing array viewed as its list of slots
(the rows indexed by the append), each slot one item; `count` is the
number of items appended before this call.  While `count < num_limit`
the item is written at slot `count`; otherwise the slice assignment
`cache[:num_limit-1] = cache[1:num_limit]` shifts slots 1..num_limit-1
left by one, the item is written at slot `num_limit-1`, and any slots
beyond `num_limit` are untouched. -/
def appendWithNumberLimit {α : Type} (cache : List α) (new : α)
    (num_limit count : Nat) : List α :=
  if count < num_limit then
    cache.set count new
  else
    ((cache.drop 1).take (num_limit - 1) ++ [new]) ++ cache.drop num_limit

/-- The per-cache state the estimator keeps for one series: the backing
buffer (`signals_cache`/`states_cache` row list) and the running append
count (`signal_cache_count`/`state_cache_count`). -/
structure CacheState (α : Type) where
  buf : List α
  count : Nat

/-- One Base.measure cycle as it affects a single cache (state.py lines
46-62 and 70-75): `_append_with_number_limit` at the current count, then
the count is incremented. -/
def measureAppend {α : Type} (num_limit : Nat) (s : CacheState α) (new : α) :
    CacheState α :=
  ⟨appendWithNumberLimit s.buf new num_limit s.count, s.count + 1⟩

/-- A sequence of Base.measure cycles on a single cache, items appended
left to right. -/
def measureAppendAll {α : Type} (num_limit : Nat) (s : CacheState α)
    (items : List α) : CacheState α :=
  items.foldl (measureAppend num_limit) s

/-- The cache's logical length: min(count, capacity) (spec section 4.5). -/
def logicalLength {α : Type} (num_limit : Nat) (s : CacheState α) : Nat :=
  min s.count num_limit

/-- Snapshot of the cache's current contents in chronological order: the
first `logicalLength` slots of the backing buffer. -/
def snapshot {α : Type} (num_limit : Nat) (s : CacheState α) : List α :=
  s.buf.take (logicalLength num_limit s)

/-- The Python error raised when an instance attribute is read before it
has ever been assigned. -/
inductive PyError where
  | AttributeError
  deriving DecidableEq, Repr

/-- The instance namespace of a Base object under construction: every
attribute starts absent (`none`) and becomes `some` only when
`__init__` assigns it. -/
structure BaseObj where
  signal_number : Option Nat := none
  state_number : Option Nat := none
  signal_cache_limit : Option Nat := none
  state_cache_limit : Option Nat := none
  signal_cache_count : Option Nat := none
  state_cache_count : Option Nat := none
  state_names : Option (List String) := none
  signal_names : Option (List String) := none
  signals_cache : Option (Nat × Nat) := none
  states_cache : Option (Nat × Nat) := none
  f_idx : Option Nat := none

/-- Reading `self.attr`: AttributeError when the attribute was never
assigned. -/
def getattr {α : Type} (a : Option α) : Except PyError α :=
  match a with
  | some v => .ok v
  | none => .error .AttributeError

/-- Base.__init__ (state.py lines 27-44), assignment by assignment.
Line 37 is `self.state_names = self.state_names` and line 38 is
`self.signal_names = self.signal_names`: each right-hand side reads an
attribute that no prior line (and no class body) ever assigned.  The
numpy caches are tracked by their shapes `(rows, cols)` as allocated by
`np.empty`. -/
def Base_init (signal_number state_number : Nat)
    (signal_cache_limit state_cache_limit : Nat)
    (signal_names state_names : List String) : Except PyError BaseObj :=
  let o : BaseObj := {}
  let o := { o with signal_number := some signal_number }
  let o := { o with state_number := some state_number }
  let o := { o with signal_cache_limit := some signal_cache_limit }
  let o := { o with state_cache_limit := some state_cache_limit }
  let o := { o with signal_cache_count := some 0 }
  let o := { o with state_cache_count := some 0 }
  match getattr o.state_names with
  | .error e => .error e
  | .ok sn =>
  let o := { o with state_names := some sn }
  match getattr o.signal_names with
  | .error e => .error e
  | .ok gn =>
  let o := { o with signal_names := some gn }
  match getattr o.signal_number, getattr o.signal_cache_limit with
  | .ok n, .ok l =>
    let o := { o with signals_cache := some (n, l) }
    match getattr o.state_number, getattr o.state_cache_limit with
    | .ok n2, .ok l2 =>
      let o := { o with states_cache := some (n2, l2) }
      .ok { o with f_idx := none }
    | _, _ => .error .AttributeError
  | _, _ => .error .AttributeError

/-- StateEstimator.__init__ (state.py lines 124-126): forwards to
Base.__init__ with state_number 3, both cache limits taken from the
state_cache_limit argument, and the three fixed state names. -/
def StateEstimator_init (signal_number : Nat)
    (signal_cache_limit state_cache_limit : Nat)
    (signal_names : List String) : Except PyError BaseObj :=
  Base_init signal_number 3 state_cache_limit state_cache_limit
    signal_names ["Move", "Progress_Made", "Puzzle_in_Hand"]

/-
  Concrete instances used to witness the theorems below.
-/

/-- A constant-colour 2×2 RGB test frame. -/
def demoImg : Img RGB := ⟨2, 2, fun _ _ => (5, 5, 5)⟩

/-- A constant 2×2 depth frame (2 everywhere). -/
def demoDepth : Img ℚ := ⟨2, 2, fun _ _ => 2⟩

/-- A scene interpreter as built by the constructor: segmenter
capabilities installed, nothing calibrated or processed yet.  The demo
segmenters claim: human the top-left pixel, robot the top row,
background everything, puzzle nothing. -/
def demoScene : Scene where
  params := ⟨none⟩
  refDepth := some demoDepth
  humanSeg := fun _ img => ⟨img.h, img.w, fun i j => decide (i = 0 ∧ j = 0)⟩
  robotSeg := fun _ img => ⟨img.h, img.w, fun i _ => decide (i = 0)⟩
  bgSeg := fun img => ⟨img.h, img.w, fun _ _ => true⟩
  puzzleSeg := fun _ img => ⟨img.h, img.w, fun _ _ => false⟩
  humanSegHeight := none
  robotSegHeight := none
  rgb_img := none
  depth := none
  height_map := none
  bg_mask := none
  human_mask := none
  robot_mask := none
  puzzle_mask := none

/-- The demo scene after a process_depth call, so the nonROI
precondition holds. -/
def calScene : Scene := (process_depth demoScene demoDepth).1

/-- The height map calScene holds (reference and current depth agree, so
it is zero everywhere). -/
def demoHeight : Img ℚ := ⟨2, 2, fun _ _ => |(2:ℚ) - 2|⟩

/-- An all-true 1×1 mask. -/
def maskT : Img Bool := ⟨1, 1, fun _ _ => true⟩

/-- An all-true 2×3 mask: a previous frame's stored mask. -/
def wideMask : Img Bool := ⟨2, 3, fun _ _ => true⟩

/-- A 2×3 depth frame that does not match demoImg's 2×2 resolution. -/
def wideDepth : Img ℚ := ⟨2, 3, fun _ _ => 2⟩

/-- A 2×3 height map paired with wideDepth. -/
def wideHeight : Img ℚ := ⟨2, 3, fun _ _ => 0⟩

/-- A scene calibrated at 2×3 resolution holding a full 2×3 mask
snapshot from earlier frames; processing a 2×2 frame on it fails
mid-composition. -/
def mismatchScene : Scene :=
  { demoScene with
    refDepth := some wideDepth
    depth := some wideDepth
    height_map := some wideHeight
    bg_mask := some wideMask
    human_mask := some wideMask
    robot_mask := some wideMask
    puzzle_mask := some wideMask }

/-- An all-true 2×3 stored bg mask for the get_layer witnesses. -/
def demoMask23 : Img Bool := ⟨2, 3, fun _ _ => true⟩

/-- The identity homography. -/
def idMat : Mat3 := ⟨1, 0, 0, 0, 1, 0, 0, 0, 1⟩

/-- A scene holding a bg mask but no BEV transformation matrix. -/
def maskedSceneNoBEV : Scene := { demoScene with bg_mask := some demoMask23 }

/-- A scene holding a bg mask and a BEV transformation matrix. -/
def maskedSceneBEV : Scene :=
  { demoScene with bg_mask := some demoMask23, params := ⟨some idMat⟩ }

/-
  Helper lemmas.
-/

/-- Successful numpy `or`: output has the left operand's shape and the
pointwise disjunction as pixels. -/
theorem imgOr_ok (a b c : Img Bool) (h : imgOr a b = .ok c) :
    c.h = a.h ∧ c.w = a.w ∧ ∀ i j, c.px i j = (a.px i j || b.px i j) := by
  unfold imgOr at h
  split at h
  · injection h with h2
    subst h2
    exact ⟨rfl, rfl, fun i j => rfl⟩
  · exact Except.noConfusion h

/-- Successful numpy `and-not`: output has the left operand's shape and
the pointwise a && !b as pixels. -/
theorem imgAndNot_ok (a b c : Img Bool) (h : imgAndNot a b = .ok c) :
    c.h = a.h ∧ c.w = a.w ∧ ∀ i j, c.px i j = (a.px i j && !(b.px i j)) := by
  unfold imgAndNot at h
  split at h
  · injection h with h2
    subst h2
    exact ⟨rfl, rfl, fun i j => rfl⟩
  · exact Except.noConfusion h

/-- Successful masked clear `a[m] = False`: output has a's shape and the
pointwise a && !m as pixels. -/
theorem maskSetFalse_ok (a m c : Img Bool) (h : maskSetFalse a m = .ok c) :
    c.h = a.h ∧ c.w = a.w ∧ ∀ i j, c.px i j = (a.px i j && !(m.px i j)) := by
  unfold maskSetFalse at h
  split at h
  · injection h with h2
    subst h2
    exact ⟨rfl, rfl, fun i j => rfl⟩
  · exact Except.noConfusion h

/-- Inversion of a successful process call: the four stored masks after
the call, with the background and robot pixels expressed by the
composition formulas of scene.py lines 121-136. -/
theorem process_ok_spec (s s2 : Scene) (img : Img RGB)
    (h : process s img = (s2, none)) :
    ∃ nr hm bm rm pm,
      nonROI { s with rgb_img := some img } = .ok nr ∧
      s2.human_mask = some hm ∧ s2.bg_mask = some bm ∧
      s2.robot_mask = some rm ∧ s2.puzzle_mask = some pm ∧
      hm = s.humanSeg s.humanSegHeight img ∧
      (∀ i j, bm.px i j = (((s.bgSeg img).px i j || nr.px i j) && !(hm.px i j))) ∧
      (∀ i j, rm.px i j =
        (((s.robotSeg s.robotSegHeight img).px i j && !(hm.px i j)) && !(bm.px i j))) := by
  unfold process at h
  dsimp only [] at h
  split at h
  · simp at h
  next nr hnr =>
    split at h
    · simp at h
    next bg1 hbg1 =>
      split at h
      · simp at h
      next bg2 hbg2 =>
        split at h
        · simp at h
        next rb1 hrb1 =>
          split at h
          · simp at h
          next rb2 hrb2 =>
            simp only [Prod.mk.injEq] at h
            obtain ⟨hs, -⟩ := h
            subst hs
            obtain ⟨hbh, hbw, hbp⟩ := imgOr_ok _ _ _ hbg1
            obtain ⟨hb2h, hb2w, hb2p⟩ := imgAndNot_ok _ _ _ hbg2
            obtain ⟨hr1h, hr1w, hr1p⟩ := maskSetFalse_ok _ _ _ hrb1
            obtain ⟨hr2h, hr2w, hr2p⟩ := maskSetFalse_ok _ _ _ hrb2
            refine ⟨nr, _, bg2, rb2, _, hnr, rfl, rfl, rfl, rfl, rfl, ?_, ?_⟩
            · intro i j
              rw [hb2p i j, hbp i j]
            · intro i j
              rw [hr2p i j, hr1p i j]

/-- Unfolding one trailing append through the fold of measure cycles. -/
theorem measureAppendAll_append {α : Type} (C : Nat) (s : CacheState α)
    (xs : List α) (x : α) :
    measureAppendAll C s (xs ++ [x]) = measureAppend C (measureAppendAll C s xs) x := by
  simp [measureAppendAll, List.foldl_append]

/-- Characterization of the backing buffer after appending a whole item
sequence to a fresh capacity-C cache: while at most C items have been
appended they sit in front of the untouched remainder of the initial
buffer; beyond that the buffer holds exactly the last C items,
oldest first. -/
theorem measureAppendAll_spec {α : Type} (C : Nat) (hC : 0 < C) (b : List α)
    (hb : b.length = C) (xs : List α) :
    (measureAppendAll C ⟨b, 0⟩ xs).count = xs.length ∧
    (measureAppendAll C ⟨b, 0⟩ xs).buf =
      if xs.length ≤ C then xs ++ b.drop xs.length else xs.drop (xs.length - C) := by
  induction xs using List.reverseRecOn with
  | nil =>
    refine ⟨rfl, ?_⟩
    simp [measureAppendAll]
  | append_singleton xs x ih =>
    obtain ⟨ih1, ih2⟩ := ih
    rw [measureAppendAll_append]
    refine ⟨by simp [measureAppend, ih1], ?_⟩
    show appendWithNumberLimit (measureAppendAll C ⟨b, 0⟩ xs).buf x C
      (measureAppendAll C ⟨b, 0⟩ xs).count = _
    rw [ih1, ih2]
    unfold appendWithNumberLimit
    by_cases hlt : xs.length < C
    · rw [if_pos hlt, if_pos (le_of_lt hlt)]
      have hlen2 : (xs ++ [x]).length = xs.length + 1 := by simp
      rw [hlen2, if_pos (by omega)]
      have hblt : xs.length < b.length := by omega
      rw [List.set_append_right xs.length x (le_refl _), Nat.sub_self,
        ← List.getElem_cons_drop b xs.length hblt, List.set_cons_zero]
      simp
    · have hge : C ≤ xs.length := Nat.le_of_not_lt hlt
      rw [if_neg hlt]
      have hbuf : (if xs.length ≤ C then xs ++ b.drop xs.length
          else xs.drop (xs.length - C)) = xs.drop (xs.length - C) := by
        by_cases heq : xs.length ≤ C
        · have hxc : xs.length = C := le_antisymm heq hge
          rw [if_pos heq, hxc, List.drop_eq_nil_of_le (le_of_eq hb),
            List.append_nil, Nat.sub_self, List.drop_zero]
        · rw [if_neg heq]
      rw [hbuf]
      have hBlen : (xs.drop (xs.length - C)).length = C := by
        rw [List.length_drop]; omega
      have hlen2 : (xs ++ [x]).length = xs.length + 1 := by simp
      rw [hlen2, if_neg (by omega)]
      rw [List.drop_eq_nil_of_le (le_of_eq hBlen), List.append_nil]
      rw [List.take_of_length_le (by rw [List.length_drop, hBlen])]
      rw [List.drop_drop]
      rw [List.drop_append_of_le_length (by omega)]
      have hidx : xs.length - C + 1 = xs.length + 1 - C := by omega
      rw [hidx]

/-
  Claim theorems.
-/

/-- Claim C1: for every frame processed successfully by
SceneInterpreterV1.process (a prior process_depth makes the non-ROI
precondition hold, which success of the call subsumes), the stored final
human, background and robot masks are pairwise disjoint: no pixel is
true in two of the three. -/
theorem process_final_masks_pairwise_disjoint (s s2 : Scene) (img : Img RGB)
    (h : process s img = (s2, none)) :
    ∃ hm bm rm, s2.human_mask = some hm ∧ s2.bg_mask = some bm ∧
      s2.robot_mask = some rm ∧
      ∀ i j, (hm.px i j && bm.px i j) = false ∧
        (hm.px i j && rm.px i j) = false ∧ (bm.px i j && rm.px i j) = false := by
  obtain ⟨nr, hm, bm, rm, pm, hnr, h1, h2, h3, h4, hhm, hbm, hrm⟩ :=
    process_ok_spec s s2 img h
  refine ⟨hm, bm, rm, h1, h2, h3, fun i j => ?_⟩
  rw [hrm i j, hbm i j]
  cases hm.px i j <;> cases (s.bgSeg img).px i j <;> cases nr.px i j <;>
    cases (s.robotSeg s.robotSegHeight img).px i j <;> simp

/-- Witness for C1 on the calibrated demo scene and a concrete frame. -/
theorem process_final_masks_pairwise_disjoint_witness :
    ∃ hm bm rm, (process calScene demoImg).1.human_mask = some hm ∧
      (process calScene demoImg).1.bg_mask = some bm ∧
      (process calScene demoImg).1.robot_mask = some rm ∧
      ∀ i j, (hm.px i j && bm.px i j) = false ∧
        (hm.px i j && rm.px i j) = false ∧ (bm.px i j && rm.px i j) = false :=
  process_final_masks_pairwise_disjoint calScene (process calScene demoImg).1 demoImg rfl

/-- Claim C4: after a successful process call the stored final
background mask equals, pixel for pixel, the union of the raw background
mask and the non-ROI mask minus every pixel claimed by the (raw = final)
human mask; in particular when the human raw mask covers a region R1,
the background raw mask covers R1 together with a disjoint region R2,
and non-ROI is empty, the final background mask covers exactly R2. -/
theorem process_bg_mask_composition (s s2 : Scene) (img : Img RGB)
    (h : process s img = (s2, none)) :
    ∃ nr bm, nonROI { s with rgb_img := some img } = .ok nr ∧ s2.bg_mask = some bm ∧
      (∀ i j, bm.px i j =
        (((s.bgSeg img).px i j || nr.px i j) &&
          !((s.humanSeg s.humanSegHeight img).px i j))) ∧
      (∀ R1 R2 : Nat → Nat → Bool,
        (∀ i j, (R1 i j && R2 i j) = false) →
        (∀ i j, (s.humanSeg s.humanSegHeight img).px i j = R1 i j) →
        (∀ i j, (s.bgSeg img).px i j = (R1 i j || R2 i j)) →
        (∀ i j, nr.px i j = false) →
        ∀ i j, bm.px i j = R2 i j) := by
  obtain ⟨nr, hm, bm, rm, pm, hnr0, h1, h2, h3, h4, hhm, hbm, hrm⟩ :=
    process_ok_spec s s2 img h
  refine ⟨nr, bm, hnr0, h2, ?_, ?_⟩
  · intro i j
    rw [hbm i j, hhm]
  · intro R1 R2 hdisj hR1 hR2 hnrE i j
    rw [hbm i j, hhm, hR1 i j, hR2 i j, hnrE i j]
    have hd := hdisj i j
    cases hc1 : R1 i j <;> cases hc2 : R2 i j <;> simp_all

/-- Witness for C4 on the calibrated demo scene. -/
theorem process_bg_mask_composition_witness :
    ∃ nr bm,
      nonROI { calScene with rgb_img := some demoImg } = .ok nr ∧
      (process calScene demoImg).1.bg_mask = some bm ∧
      (∀ i j, bm.px i j =
        (((calScene.bgSeg demoImg).px i j || nr.px i j) &&
          !((calScene.humanSeg calScene.humanSegHeight demoImg).px i j))) ∧
      (∀ R1 R2 : Nat → Nat → Bool,
        (∀ i j, (R1 i j && R2 i j) = false) →
        (∀ i j, (calScene.humanSeg calScene.humanSegHeight demoImg).px i j = R1 i j) →
        (∀ i j, (calScene.bgSeg demoImg).px i j = (R1 i j || R2 i j)) →
        (∀ i j, nr.px i j = false) →
        ∀ i j, bm.px i j = R2 i j) :=
  process_bg_mask_composition calScene (process calScene demoImg).1 demoImg rfl

/-- Claim C6: demoting a raw robot mask by clearing the human-claimed
pixels and then the background-claimed pixels gives the same mask as
clearing in the opposite order, and the same mask as the single combined
test raw && !human && !background. -/
theorem robot_demotion_order_independent (r hm bm : Img Bool)
    (h1 : r.sameShape hm) (h2 : r.sameShape bm) :
    ∃ x1 m1 x2 m2,
      maskSetFalse r hm = .ok x1 ∧ maskSetFalse x1 bm = .ok m1 ∧
      maskSetFalse r bm = .ok x2 ∧ maskSetFalse x2 hm = .ok m2 ∧
      ∀ i j, m1.px i j = m2.px i j ∧
        m1.px i j = (r.px i j && !(hm.px i j) && !(bm.px i j)) := by
  refine ⟨⟨r.h, r.w, fun i j => r.px i j && !(hm.px i j)⟩,
          ⟨r.h, r.w, fun i j => (r.px i j && !(hm.px i j)) && !(bm.px i j)⟩,
          ⟨r.h, r.w, fun i j => r.px i j && !(bm.px i j)⟩,
          ⟨r.h, r.w, fun i j => (r.px i j && !(bm.px i j)) && !(hm.px i j)⟩,
          ?_, ?_, ?_, ?_, ?_⟩
  · simp [maskSetFalse, Img.sameShape, h1.1, h1.2]
  · simp [maskSetFalse, Img.sameShape, h2.1, h2.2]
  · simp [maskSetFalse, Img.sameShape, h2.1, h2.2]
  · simp [maskSetFalse, Img.sameShape, h1.1, h1.2]
  · intro i j
    refine ⟨?_, rfl⟩
    show ((r.px i j && !(hm.px i j)) && !(bm.px i j)) =
      ((r.px i j && !(bm.px i j)) && !(hm.px i j))
    cases r.px i j <;> cases hm.px i j <;> cases bm.px i j <;> rfl

/-- Witness for C6 on concrete 1×1 masks. -/
theorem robot_demotion_order_independent_witness :
    ∃ x1 m1 x2 m2,
      maskSetFalse maskT maskT = .ok x1 ∧ maskSetFalse x1 maskT = .ok m1 ∧
      maskSetFalse maskT maskT = .ok x2 ∧ maskSetFalse x2 maskT = .ok m2 ∧
      ∀ i j, m1.px i j = m2.px i j ∧
        m1.px i j = (maskT.px i j && !(maskT.px i j) && !(maskT.px i j)) :=
  robot_demotion_order_independent maskT maskT maskT ⟨rfl, rfl⟩ ⟨rfl, rfl⟩

/-- Counterexample to claim C9 as stated: on a scene calibrated at 2×3
resolution and holding a full 2×3 mask snapshot, processing a 2×2 frame
fails (ShapeMismatch at `bg_mask | nonROI_mask`), yet the stored human
and background masks have already been overwritten with the new frame's
2×2 raw masks: the previously stored masks do not all remain the last
valid snapshot. -/
theorem process_failure_overwrites_human_mask :
    (process mismatchScene demoImg).2 = some SceneError.ShapeMismatch ∧
    Option.map Img.w ((process mismatchScene demoImg).1.human_mask) = some 2 ∧
    Option.map Img.w mismatchScene.human_mask = some 3 ∧
    Option.map Img.w ((process mismatchScene demoImg).1.bg_mask) = some 2 ∧
    Option.map Img.w mismatchScene.bg_mask = some 3 :=
  ⟨rfl, rfl, rfl, rfl, rfl⟩

/-- Claim C9 (amended): a process call either succeeds, storing all four
final masks, or fails; when the failure is the non-ROI precondition
(raised before any mask assignment) all four previously stored masks
remain unchanged.  (A failure later in composition can leave the masks
assigned before the failing step already overwritten.) -/
theorem process_atomicity_amended (s : Scene) (img : Img RGB) :
    (∀ s2, process s img = (s2, none) →
      (∃ hm, s2.human_mask = some hm) ∧ (∃ bm, s2.bg_mask = some bm) ∧
      (∃ rm, s2.robot_mask = some rm) ∧ (∃ pm, s2.puzzle_mask = some pm)) ∧
    (∀ e, nonROI { s with rgb_img := some img } = .error e →
      (process s img).2 = some e ∧
      (process s img).1.bg_mask = s.bg_mask ∧
      (process s img).1.human_mask = s.human_mask ∧
      (process s img).1.robot_mask = s.robot_mask ∧
      (process s img).1.puzzle_mask = s.puzzle_mask) := by
  constructor
  · intro s2 h
    obtain ⟨nr, hm, bm, rm, pm, hnr, h1, h2, h3, h4, -⟩ := process_ok_spec s s2 img h
    exact ⟨⟨hm, h1⟩, ⟨bm, h2⟩, ⟨rm, h3⟩, ⟨pm, h4⟩⟩
  · intro e he
    unfold process
    dsimp only []
    rw [he]
    exact ⟨rfl, rfl, rfl, rfl, rfl⟩

/-- Witness for C9 (amended): on the uncalibrated demo scene the call
fails at the non-ROI precondition and every stored mask is untouched. -/
theorem process_atomicity_amended_witness :
    (process demoScene demoImg).2 = some SceneError.NotCalibrated ∧
    (process demoScene demoImg).1.bg_mask = demoScene.bg_mask ∧
    (process demoScene demoImg).1.human_mask = demoScene.human_mask ∧
    (process demoScene demoImg).1.robot_mask = demoScene.robot_mask ∧
    (process demoScene demoImg).1.puzzle_mask = demoScene.puzzle_mask :=
  (process_atomicity_amended demoScene demoImg).2 SceneError.NotCalibrated rfl

/-- Claim C3: with a depth frame and a height map stored (as
process_depth leaves them, in particular with matching shapes), nonROI
returns a mask that is true at a pixel exactly when the depth magnitude
is below 1e-3 or the height exceeds the fixed 0.5 ceiling, and the
result depends on nothing but the stored depth and height map (no
memory of prior frames). -/
theorem nonROI_characterization (s : Scene) (d hmap : Img ℚ)
    (hd : s.depth = some d) (hh : s.height_map = some hmap)
    (hsh : hmap.sameShape d) :
    (∃ m, nonROI s = .ok m ∧
      ∀ i j, m.px i j = true ↔ (|d.px i j| < 1/1000 ∨ hmap.px i j > 1/2)) ∧
    (∀ s2 : Scene, s2.depth = s.depth → s2.height_map = s.height_map →
      nonROI s2 = nonROI s) := by
  constructor
  · refine ⟨⟨d.h, d.w,
      fun i j => (|d.px i j| < 1/1000 : Bool) || (hmap.px i j > 1/2 : Bool)⟩, ?_, ?_⟩
    · unfold nonROI
      rw [hd, hh]
      dsimp only []
      rw [if_pos hsh]
    · intro i j
      simp
  · intro s2 h1 h2
    unfold nonROI
    rw [h1, h2]

/-- Witness for C3 on the calibrated demo scene. -/
theorem nonROI_characterization_witness :
    (∃ m, nonROI calScene = .ok m ∧
      ∀ i j, m.px i j = true ↔
        (|demoDepth.px i j| < 1/1000 ∨ demoHeight.px i j > 1/2)) ∧
    (∀ s2 : Scene, s2.depth = calScene.depth → s2.height_map = calScene.height_map →
      nonROI s2 = nonROI calScene) :=
  nonROI_characterization calScene demoDepth demoHeight rfl rfl ⟨rfl, rfl⟩

/-- Claim C5: for a calibrated reference depth frame and a current depth
frame of matching shape, process_depth succeeds and stores a height map
equal at every pixel to the absolute difference between the reference
and the current depth. -/
theorem process_depth_height_abs_diff (s : Scene) (r d : Img ℚ)
    (href : s.refDepth = some r) (hsh : r.sameShape d) :
    ∃ s2, process_depth s d = (s2, none) ∧
      ∃ hmap, s2.height_map = some hmap ∧ hmap.h = d.h ∧ hmap.w = d.w ∧
        ∀ i j, hmap.px i j = |r.px i j - d.px i j| := by
  unfold process_depth heightEstimatorApply
  dsimp only []
  rw [href]
  dsimp only []
  rw [if_pos hsh]
  exact ⟨_, rfl, _, rfl, rfl, rfl, fun i j => rfl⟩

/-- Witness for C5 on the demo scene. -/
theorem process_depth_height_abs_diff_witness :
    ∃ s2, process_depth demoScene demoDepth = (s2, none) ∧
      ∃ hmap, s2.height_map = some hmap ∧ hmap.h = demoDepth.h ∧ hmap.w = demoDepth.w ∧
        ∀ i j, hmap.px i j = |demoDepth.px i j - demoDepth.px i j| :=
  process_depth_height_abs_diff demoScene demoDepth demoDepth rfl ⟨rfl, rfl⟩

/-- Claim C7: get_layer called with any name outside the fixed
four-layer vocabulary fails with the UnknownLayer error, whatever the
other arguments. -/
theorem get_layer_unknown_layer (s : Scene) (name : String)
    (hname : name ∉ ["bg", "human", "robot", "puzzle"]) (mo bev : Bool) :
    get_layer s name mo bev = .error .UnknownLayer := by
  unfold get_layer layerContent
  rw [if_neg hname]

/-- Witness for C7: the spec's banana query. -/
theorem get_layer_unknown_layer_witness :
    get_layer demoScene "banana" false false = .error SceneError.UnknownLayer :=
  get_layer_unknown_layer demoScene "banana" (by decide) false false

/-- Claim C8: for a layer query whose content is available, requesting
BEV rectification fails with NoTransformConfigured when no homography
was supplied at construction, and with a homography configured it
succeeds with a rectified layer of the same dimensions as the input
layer. -/
theorem get_layer_BEV_requires_transform (s : Scene) (name : String) (mo : Bool)
    (L : Layer) (hc : layerContent s name mo = .ok L) :
    (s.params.BEV_trans_mat = none →
      get_layer s name mo true = .error .NoTransformConfigured) ∧
    (∀ m, s.params.BEV_trans_mat = some m →
      get_layer s name mo true = .ok (warpLayer m L) ∧
      (warpLayer m L).hw = L.hw) := by
  constructor
  · intro hbev
    unfold get_layer
    rw [hc, hbev]
    rfl
  · intro m hbev
    constructor
    · unfold get_layer
      rw [hc, hbev]
      rfl
    · cases L with
      | mask msk => rfl
      | image im => rfl

/-- Witness for C8: the same stored mask queried without and with a
configured homography. -/
theorem get_layer_BEV_requires_transform_witness :
    (get_layer maskedSceneNoBEV "bg" true true = .error SceneError.NoTransformConfigured) ∧
    (get_layer maskedSceneBEV "bg" true true = .ok (warpLayer idMat (.mask demoMask23)) ∧
      (warpLayer idMat (.mask demoMask23)).hw = (Layer.mask demoMask23).hw) :=
  ⟨(get_layer_BEV_requires_transform maskedSceneNoBEV "bg" true (.mask demoMask23) rfl).1 rfl,
   (get_layer_BEV_requires_transform maskedSceneBEV "bg" true (.mask demoMask23) rfl).2 idMat rfl⟩

/-- Claim C2: on a fresh cache of capacity C, appending any item
sequence leaves logical length min(N, C); while N does not exceed C the
snapshot is the append sequence itself in order, and beyond C it is the
last C appended items in chronological order, oldest first. -/
theorem ringCache_append_eviction {α : Type} (C : Nat) (hC : 0 < C) (b : List α)
    (hb : b.length = C) (xs : List α) :
    logicalLength C (measureAppendAll C ⟨b, 0⟩ xs) = min xs.length C ∧
    snapshot C (measureAppendAll C ⟨b, 0⟩ xs) =
      if xs.length ≤ C then xs else xs.drop (xs.length - C) := by
  obtain ⟨h1, h2⟩ := measureAppendAll_spec C hC b hb xs
  refine ⟨by simp [logicalLength, h1], ?_⟩
  unfold snapshot logicalLength
  rw [h1, h2]
  by_cases hle : xs.length ≤ C
  · rw [if_pos hle, if_pos hle, min_eq_left hle]
    exact List.take_left xs (b.drop xs.length)
  · rw [if_neg hle, if_neg hle, min_eq_right (by omega)]
    apply List.take_of_length_le
    rw [List.length_drop]
    omega

/-- Witness for C2: the spec's capacity-3 scenario, appending the five
items 1..5 leaves snapshot [3, 4, 5] at logical length 3. -/
theorem ringCache_append_eviction_witness :
    logicalLength 3 (measureAppendAll 3 (⟨[9, 9, 9], 0⟩ : CacheState Nat) [1, 2, 3, 4, 5]) = 3 ∧
    snapshot 3 (measureAppendAll 3 (⟨[9, 9, 9], 0⟩ : CacheState Nat) [1, 2, 3, 4, 5]) = [3, 4, 5] := by
  have h := ringCache_append_eviction 3 (by decide) [9, 9, 9] rfl [1, 2, 3, 4, 5]
  refine ⟨?_, ?_⟩
  · rw [h.1]
    rfl
  · rw [h.2]
    rfl

/-- Claim C10: for every choice of constructor arguments, Base.__init__
(and hence StateEstimator.__init__, which delegates to it) raises
AttributeError before completing, because line 37 reads
self.state_names before any assignment to it; no instance with
populated signal/state caches is ever produced. -/
theorem base_init_always_raises (signal_number state_number : Nat)
    (signal_cache_limit state_cache_limit : Nat)
    (signal_names state_names : List String)
    (sn2 scl2 stl2 : Nat) (names2 : List String) :
    Base_init signal_number state_number signal_cache_limit state_cache_limit
      signal_names state_names = .error .AttributeError ∧
    StateEstimator_init sn2 scl2 stl2 names2 = .error .AttributeError :=
  ⟨rfl, rfl⟩
